import Mathlib

/-!
Verification development for the composite signal scoring engine of
`src/app.py` (a Streamlit stock-analysis application).

Modelling conventions:
* Prices, indicator values and scores are embedded as rationals (`ℚ`);
  the accumulated rule scores are integers (`ℤ`).
* A pandas cell that may hold `NaN` (or an absent/`None` indicator value)
  is embedded as `Option ℚ`, with `none` standing for `NaN`/absent.
  In pandas/NumPy every ordered comparison against `NaN` is `False`;
  the comparison helpers below (`ogt`, `olt`, `ole`) return `false`
  whenever either side is `none`, which also covers the source's
  `latest['SMA_Long'] is not None and ...` guard (a missing/None long
  moving average makes the conjunction false either way).
* Indicator mathematics (`pandas_ta` / pandas rolling windows) is an
  external library the source delegates to; per the engine boundary the
  scorers are embedded over a snapshot of already-computed indicator
  values at the latest (and previous) bar.
-/

set_option autoImplicit false

namespace USAStock

/-- `NaN`-aware strict greater-than: `a > b` in pandas semantics, false if
either side is `NaN`/absent. -/
def ogt : Option ℚ → Option ℚ → Bool
  | some a, some b => decide (b < a)
  | _, _ => false

/-- `NaN`-aware strict less-than. -/
def olt : Option ℚ → Option ℚ → Bool
  | some a, some b => decide (a < b)
  | _, _ => false

/-- `NaN`-aware less-or-equal (false when either side is `NaN`, as in
IEEE-754 / pandas). -/
def ole : Option ℚ → Option ℚ → Bool
  | some a, some b => decide (a ≤ b)
  | _, _ => false

/-! ### Signal strings (verbatim from `src/app.py`) -/

def sigVolUp : String := "🔥 爆量上漲 (主力搶籌跡象)"
def sigVolDown : String := "⚠️ 爆量下跌 (主力出貨跡象)"
def sigOBV : String := "📈 OBV 位於均線上方 (資金持續流入)"
def sigMFIHot : String := "⚠️ MFI 過熱 (>80)，資金可能短期撤離"
def sigMFICold : String := "🛒 MFI 過冷 (<20)，資金可能回流"
def sigSMALong : String := "✅ 價格位於長期均線之上 (多頭趨勢)"
def sigRSIOversold : String := "💎 RSI 超賣 (<30)，高勝率反彈點"
def sigRSIOverbought : String := "⚠️ RSI 超買 (>70)，回調風險高"
def sigMACDGolden : String := "🚀 MACD 黃金交叉 (買入訊號)"
def sigBBLower : String := "🛡️ 跌破布林下軌 (超跌回歸)"

/-! ### Smart-money scorer (`calculate_smart_money`, app.py lines 71-109) -/

/-- The fields of `df.iloc[-1]` read by `calculate_smart_money`:
raw bar values `Close`/`Open` and the computed series `RVOL`, `OBV`,
`OBV_EMA`, `MFI` at the latest index. -/
structure SmartRow where
  Close : Option ℚ
  Open : Option ℚ
  RVOL : Option ℚ
  OBV : Option ℚ
  OBV_EMA : Option ℚ
  MFI : Option ℚ

/-- `calculate_smart_money`, given the latest row of the (indicator-augmented)
dataframe. Base score 50; relative-volume spike rule, OBV-vs-EMA rule,
MFI extremes rule; final score clamped into `[0, 100]`.
Returns `(max(0, min(100, score)), signals)`. -/
def calculate_smart_money (latest : SmartRow) : ℤ × List String :=
  let score : ℤ := 50
  let signals : List String := []
  let (score, signals) :=
    if ogt latest.RVOL (some (3/2)) && ogt latest.Close latest.Open then
      (score + 15, signals ++ [sigVolUp])
    else if ogt latest.RVOL (some (3/2)) && olt latest.Close latest.Open then
      (score - 15, signals ++ [sigVolDown])
    else (score, signals)
  let (score, signals) :=
    if ogt latest.OBV latest.OBV_EMA then
      (score + 10, signals ++ [sigOBV])
    else (score, signals)
  let (score, signals) :=
    if ogt latest.MFI (some 80) then
      (score - 10, signals ++ [sigMFIHot])
    else if olt latest.MFI (some 20) then
      (score + 10, signals ++ [sigMFICold])
    else (score, signals)
  (max 0 (min 100 score), signals)

/-! ### Technical scorer (`calculate_technical_strategy`, app.py lines 111-162) -/

/-- The values `calculate_technical_strategy` reads from the dataframe:
the latest row's `Close`, `SMA_Long`, `RSI`, the MACD line/signal at the
latest and previous rows, the lower Bollinger band at the latest row, and
the two column-presence checks `'MACD_12_26_9' in df.columns` and
`'BBL_20_2.0' in df.columns`. -/
structure TechRow where
  Close : Option ℚ
  SMA_Long : Option ℚ
  RSI : Option ℚ
  hasMACD : Bool
  MACD : Option ℚ
  MACDs : Option ℚ
  prevMACD : Option ℚ
  prevMACDs : Option ℚ
  hasBBL : Bool
  BBL : Option ℚ

/-- `calculate_technical_strategy`, given the values it reads from the
latest and previous dataframe rows. Base score 50; long-SMA trend rule,
RSI extremes rule, MACD golden-cross rule (guarded by column presence),
lower-Bollinger rule (guarded by column presence); final score clamped
into `[0, 100]`. -/
def calculate_technical_strategy (r : TechRow) : ℤ × List String :=
  let score : ℤ := 50
  let reasons : List String := []
  let (score, reasons) :=
    if ogt r.Close r.SMA_Long then
      (score + 10, reasons ++ [sigSMALong])
    else (score, reasons)
  let (score, reasons) :=
    if olt r.RSI (some 30) then
      (score + 20, reasons ++ [sigRSIOversold])
    else if ogt r.RSI (some 70) then
      (score - 20, reasons ++ [sigRSIOverbought])
    else (score, reasons)
  let (score, reasons) :=
    if r.hasMACD then
      if ogt r.MACD r.MACDs && ole r.prevMACD r.prevMACDs then
        (score + 15, reasons ++ [sigMACDGolden])
      else (score, reasons)
    else (score, reasons)
  let (score, reasons) :=
    if r.hasBBL && olt r.Close r.BBL then
      (score + 15, reasons ++ [sigBBLower])
    else (score, reasons)
  (max 0 (min 100 score), reasons)

/-! ### Sentiment aggregator (`analyze_sentiment`, app.py lines 34-69)

The polarity of each headline is produced by the external `TextBlob`
library; per the engine boundary the aggregator is embedded over the
list of polarities of the incoming news items.  Of each analyzed item we
keep the fields the engine computes: the polarity score and the
sentiment label. -/

/-- The sentiment label attached to one analyzed headline
(`"⚪ 中性"` default, `"🟢 正面"` if polarity > 0.1, `"🔴 負面"` if < -0.1). -/
def sentiment_label (polarity : ℚ) : String :=
  if polarity > 1/10 then "🟢 正面"
  else if polarity < -(1/10) then "🔴 負面"
  else "⚪ 中性"

/-- `analyze_sentiment` over the polarities of the news list: 0 on an
empty list, otherwise the sum of the first at most 5 polarities divided
by their count, scaled by 100. -/
def analyze_sentiment (news_list : List ℚ) : ℚ × List (ℚ × String) :=
  if news_list = [] then (0, [])
  else
    let items := news_list.take 5
    let sentiment_score := items.foldl (· + ·) 0
    let analyzed_news := items.map (fun p => (p, sentiment_label p))
    let count := items.length
    if count = 0 then (0, [])
    else ((sentiment_score / (count : ℚ)) * 100, analyzed_news)

/-! ### Composite score and recommendation (app.py lines 187-226) -/

/-- `total_score` (app.py line 188): fixed-weight blend
technical 50%, smart-money 30%, sentiment (shifted by +50) 20%. -/
def total_score (tech_score sm_score sent_score : ℚ) : ℚ :=
  tech_score * 0.5 + sm_score * 0.3 + (sent_score + 50) * 0.2

/-- The three recommendation tiers rendered at app.py lines 203-208. -/
inductive Recommendation where
  | StrongBuy
  | Neutral
  | Avoid
deriving DecidableEq

/-- The tier selection (app.py lines 203-208):
`total_score >= 70` strong buy, `elif total_score >= 50` neutral,
`else` avoid. -/
def recommendation (ts : ℚ) : Recommendation :=
  if ts ≥ 70 then Recommendation.StrongBuy
  else if ts ≥ 50 then Recommendation.Neutral
  else Recommendation.Avoid

/-- The suggested entry zone (app.py lines 224-226): rendered only when
`total_score >= 60`, as `current_price * 0.98`; absent otherwise. -/
def buy_zone (ts current_price : ℚ) : Option ℚ :=
  if ts ≥ 60 then some (current_price * 0.98) else none

/-- The rationale list rendered at app.py line 211:
`tech_reasons + sm_signals`. -/
def rationale_list (tech_reasons sm_signals : List String) : List String :=
  tech_reasons ++ sm_signals

/-! ### Support/resistance (app.py lines 216-217) -/

/-- `data['High'].tail(20)`: the most recent `min(20, length)` entries. -/
def tail20 (l : List ℚ) : List ℚ :=
  l.drop (l.length - 20)

/-- `recent_high = data['High'].tail(20).max()` (`none` models the NaN a
pandas max yields on an empty series). -/
def recent_high (highs : List ℚ) : Option ℚ :=
  (tail20 highs).max?

/-- `recent_low = data['Low'].tail(20).min()`. -/
def recent_low (lows : List ℚ) : Option ℚ :=
  (tail20 lows).min?

/-! ### Helper lemmas -/

theorem ogt_olt_false (a b : Option ℚ) (h : ogt a b = true) : olt a b = false := by
  cases a <;> cases b <;> simp_all [ogt, olt]
  linarith

theorem ogt_self_false (a : Option ℚ) : ogt a a = false := by
  cases a <;> simp [ogt]

theorem olt_self_false (a : Option ℚ) : olt a a = false := by
  cases a <;> simp [olt]

theorem olt_ogt_disjoint (o : Option ℚ) (x y : ℚ) (hxy : x ≤ y)
    (h : olt o (some x) = true) : ogt o (some y) = false := by
  cases o <;> simp_all [ogt, olt]
  linarith

/-- Closed form of the smart-money scorer: the sequential rule
accumulation equals a clamped sum of independent deltas, and the signal
list is the concatenation of the per-rule singleton emissions. -/
theorem smart_money_eq (r : SmartRow) :
    calculate_smart_money r =
      (max 0 (min 100 ((50 : ℤ)
        + (if ogt r.RVOL (some (3/2)) && ogt r.Close r.Open then 15 else 0)
        - (if ogt r.RVOL (some (3/2)) && olt r.Close r.Open then 15 else 0)
        + (if ogt r.OBV r.OBV_EMA then 10 else 0)
        - (if ogt r.MFI (some 80) then 10 else 0)
        + (if olt r.MFI (some 20) then 10 else 0))),
       (if ogt r.RVOL (some (3/2)) && ogt r.Close r.Open then [sigVolUp] else [])
        ++ (if ogt r.RVOL (some (3/2)) && olt r.Close r.Open then [sigVolDown] else [])
        ++ (if ogt r.OBV r.OBV_EMA then [sigOBV] else [])
        ++ (if ogt r.MFI (some 80) then [sigMFIHot] else [])
        ++ (if olt r.MFI (some 20) then [sigMFICold] else [])) := by
  have hvol : ogt r.Close r.Open = true → olt r.Close r.Open = false :=
    ogt_olt_false _ _
  have hmfi : olt r.MFI (some 20) = true → ogt r.MFI (some 80) = false :=
    olt_ogt_disjoint _ _ _ (by norm_num)
  unfold calculate_smart_money
  cases hv : ogt r.RVOL (some (3/2)) <;>
    cases hu : ogt r.Close r.Open <;>
      cases hd : olt r.Close r.Open <;>
        cases ho : ogt r.OBV r.OBV_EMA <;>
          cases hh : ogt r.MFI (some 80) <;>
            cases hc : olt r.MFI (some 20) <;>
              simp_all

/-- Closed form of the technical scorer. -/
theorem technical_eq (r : TechRow) :
    calculate_technical_strategy r =
      (max 0 (min 100 ((50 : ℤ)
        + (if ogt r.Close r.SMA_Long then 10 else 0)
        + (if olt r.RSI (some 30) then 20 else 0)
        - (if ogt r.RSI (some 70) then 20 else 0)
        + (if r.hasMACD && (ogt r.MACD r.MACDs && ole r.prevMACD r.prevMACDs) then 15 else 0)
        + (if r.hasBBL && olt r.Close r.BBL then 15 else 0))),
       (if ogt r.Close r.SMA_Long then [sigSMALong] else [])
        ++ (if olt r.RSI (some 30) then [sigRSIOversold] else [])
        ++ (if ogt r.RSI (some 70) then [sigRSIOverbought] else [])
        ++ (if r.hasMACD && (ogt r.MACD r.MACDs && ole r.prevMACD r.prevMACDs) then [sigMACDGolden] else [])
        ++ (if r.hasBBL && olt r.Close r.BBL then [sigBBLower] else [])) := by
  have hrsi : olt r.RSI (some 30) = true → ogt r.RSI (some 70) = false :=
    olt_ogt_disjoint _ _ _ (by norm_num)
  unfold calculate_technical_strategy
  cases h1 : ogt r.Close r.SMA_Long <;>
    cases h2 : olt r.RSI (some 30) <;>
      cases h3 : ogt r.RSI (some 70) <;>
        cases h4 : r.hasMACD <;>
          cases h5 : ogt r.MACD r.MACDs && ole r.prevMACD r.prevMACDs <;>
            cases h6 : r.hasBBL && olt r.Close r.BBL <;>
              simp_all

/-- The golden-cross signal appears in the technical scorer's output iff
the guarded crossover condition holds. -/
theorem mem_golden_iff (r : TechRow) :
    sigMACDGolden ∈ (calculate_technical_strategy r).2 ↔
      (r.hasMACD && (ogt r.MACD r.MACDs && ole r.prevMACD r.prevMACDs)) = true := by
  rw [technical_eq]
  cases h : (r.hasMACD && (ogt r.MACD r.MACDs && ole r.prevMACD r.prevMACDs))
  · simp [h]
    exact ⟨fun _ => by decide, fun _ => by decide, fun _ => by decide, fun _ _ => by decide⟩
  · simp [h]

/-- The lower-Bollinger signal appears in the technical scorer's output
iff the guarded undercut condition holds. -/
theorem mem_bbl_iff (r : TechRow) :
    sigBBLower ∈ (calculate_technical_strategy r).2 ↔
      (r.hasBBL && olt r.Close r.BBL) = true := by
  rw [technical_eq]
  cases h : (r.hasBBL && olt r.Close r.BBL)
  · simp [h]
    exact ⟨fun _ => by decide, fun _ => by decide, fun _ => by decide, fun _ _ _ => by decide⟩
  · simp [h]

/-! ### Claim theorems -/

/-- C4: for every snapshot (with its two evaluation bars), the technical
score equals `clamp(50 + 10·[close > longSMA] + 20·[RSI < 30]
− 20·[RSI > 70] + 15·[MACD golden cross] + 15·[close < lowerBB], 0, 100)`
with the per-rule signals concatenated in rule order; the RSI branches
are mutually exclusive; the score lies in `[0, 100]`; and each firing
rule appends exactly one rationale signal. -/
theorem technical_score_closed_form (r : TechRow) :
    calculate_technical_strategy r =
      (max 0 (min 100 ((50 : ℤ)
        + (if ogt r.Close r.SMA_Long then 10 else 0)
        + (if olt r.RSI (some 30) then 20 else 0)
        - (if ogt r.RSI (some 70) then 20 else 0)
        + (if r.hasMACD && (ogt r.MACD r.MACDs && ole r.prevMACD r.prevMACDs) then 15 else 0)
        + (if r.hasBBL && olt r.Close r.BBL then 15 else 0))),
       (if ogt r.Close r.SMA_Long then [sigSMALong] else [])
        ++ (if olt r.RSI (some 30) then [sigRSIOversold] else [])
        ++ (if ogt r.RSI (some 70) then [sigRSIOverbought] else [])
        ++ (if r.hasMACD && (ogt r.MACD r.MACDs && ole r.prevMACD r.prevMACDs) then [sigMACDGolden] else [])
        ++ (if r.hasBBL && olt r.Close r.BBL then [sigBBLower] else []))
    ∧ ¬(olt r.RSI (some 30) = true ∧ ogt r.RSI (some 70) = true)
    ∧ 0 ≤ (calculate_technical_strategy r).1
    ∧ (calculate_technical_strategy r).1 ≤ 100
    ∧ (calculate_technical_strategy r).2.length =
        (if ogt r.Close r.SMA_Long then 1 else 0)
        + (if olt r.RSI (some 30) then 1 else 0)
        + (if ogt r.RSI (some 70) then 1 else 0)
        + (if r.hasMACD && (ogt r.MACD r.MACDs && ole r.prevMACD r.prevMACDs) then 1 else 0)
        + (if r.hasBBL && olt r.Close r.BBL then 1 else 0) := by
  refine ⟨technical_eq r, ?_, ?_, ?_, ?_⟩
  · rintro ⟨h1, h2⟩
    have := olt_ogt_disjoint r.RSI 30 70 (by norm_num) h1
    simp_all
  · rw [technical_eq]
    exact le_max_left _ _
  · rw [technical_eq]
    exact max_le (by norm_num) (min_le_left _ _)
  · rw [technical_eq]
    split_ifs <;> simp

/-- C5: for every snapshot, the smart-money score equals
`clamp(50 + 15·[RVOL > 1.5 ∧ close > open] − 15·[RVOL > 1.5 ∧ close < open]
+ 10·[OBV > OBV_EMA20] − 10·[MFI > 80] + 10·[MFI < 20], 0, 100)`; with
`close = open` neither volume-spike rule fires; the MFI branches are
mutually exclusive; and the score lies in `[0, 100]`. -/
theorem smart_money_score_spec (r : SmartRow) :
    calculate_smart_money r =
      (max 0 (min 100 ((50 : ℤ)
        + (if ogt r.RVOL (some (3/2)) && ogt r.Close r.Open then 15 else 0)
        - (if ogt r.RVOL (some (3/2)) && olt r.Close r.Open then 15 else 0)
        + (if ogt r.OBV r.OBV_EMA then 10 else 0)
        - (if ogt r.MFI (some 80) then 10 else 0)
        + (if olt r.MFI (some 20) then 10 else 0))),
       (if ogt r.RVOL (some (3/2)) && ogt r.Close r.Open then [sigVolUp] else [])
        ++ (if ogt r.RVOL (some (3/2)) && olt r.Close r.Open then [sigVolDown] else [])
        ++ (if ogt r.OBV r.OBV_EMA then [sigOBV] else [])
        ++ (if ogt r.MFI (some 80) then [sigMFIHot] else [])
        ++ (if olt r.MFI (some 20) then [sigMFICold] else []))
    ∧ 0 ≤ (calculate_smart_money r).1
    ∧ (calculate_smart_money r).1 ≤ 100
    ∧ (r.Close = r.Open →
        sigVolUp ∉ (calculate_smart_money r).2 ∧ sigVolDown ∉ (calculate_smart_money r).2)
    ∧ ¬(ogt r.MFI (some 80) = true ∧ olt r.MFI (some 20) = true) := by
  refine ⟨smart_money_eq r, ?_, ?_, ?_, ?_⟩
  · rw [smart_money_eq]
    exact le_max_left _ _
  · rw [smart_money_eq]
    exact max_le (by norm_num) (min_le_left _ _)
  · intro hEq
    rw [smart_money_eq]
    rw [hEq, ogt_self_false, olt_self_false]
    constructor <;> (split_ifs <;> simp_all <;> decide)
  · rintro ⟨h1, h2⟩
    have := olt_ogt_disjoint r.MFI 20 80 (by norm_num) h2
    simp_all

/-- C6: with the MACD columns present and all four MACD values defined,
the golden-cross rule fires iff the crossing is strictly upward between
the previous and latest bar; equality on both bars never fires it; and
when it does not fire the output is identical to that of a snapshot with
no MACD rule at all (no death-cross penalty exists). -/
theorem macd_golden_cross_spec (r : TechRow) (l s pl ps : ℚ)
    (hm : r.hasMACD = true) (h1 : r.MACD = some l) (h2 : r.MACDs = some s)
    (h3 : r.prevMACD = some pl) (h4 : r.prevMACDs = some ps) :
    (sigMACDGolden ∈ (calculate_technical_strategy r).2 ↔ s < l ∧ pl ≤ ps)
    ∧ (l = s ∧ pl = ps → sigMACDGolden ∉ (calculate_technical_strategy r).2)
    ∧ (¬(s < l ∧ pl ≤ ps) →
        calculate_technical_strategy r =
          calculate_technical_strategy { r with hasMACD := false }) := by
  have hiff : sigMACDGolden ∈ (calculate_technical_strategy r).2 ↔ s < l ∧ pl ≤ ps := by
    rw [mem_golden_iff]
    simp [hm, h1, h2, h3, h4, ogt, ole]
  refine ⟨hiff, ?_, ?_⟩
  · rintro ⟨he, _⟩ hmem
    obtain ⟨hsl, _⟩ := hiff.mp hmem
    rw [he] at hsl
    exact lt_irrefl s hsl
  · intro hno
    have hcond : (ogt r.MACD r.MACDs && ole r.prevMACD r.prevMACDs) = false := by
      rw [h1, h2, h3, h4]
      simp only [ogt, ole]
      by_cases hsl : s < l
      · by_cases hps : pl ≤ ps
        · exact absurd ⟨hsl, hps⟩ hno
        · simp [hsl, hps]
      · simp [hsl]
    rw [technical_eq, technical_eq]
    simp [hcond]

/-- C10: when the `MACD_12_26_9` column (respectively the `BBL_20_2.0`
column) is absent from the dataframe, the technical scorer silently
skips the MACD crossover rule (respectively the Bollinger undercut
rule): it contributes no score delta, emits no signal, and no error is
raised (the scorer stays a total function). -/
theorem missing_indicator_columns_skip (r : TechRow) :
    (r.hasMACD = false →
      sigMACDGolden ∉ (calculate_technical_strategy r).2
      ∧ calculate_technical_strategy r =
        (max 0 (min 100 ((50 : ℤ)
          + (if ogt r.Close r.SMA_Long then 10 else 0)
          + (if olt r.RSI (some 30) then 20 else 0)
          - (if ogt r.RSI (some 70) then 20 else 0)
          + (if r.hasBBL && olt r.Close r.BBL then 15 else 0))),
         (if ogt r.Close r.SMA_Long then [sigSMALong] else [])
          ++ (if olt r.RSI (some 30) then [sigRSIOversold] else [])
          ++ (if ogt r.RSI (some 70) then [sigRSIOverbought] else [])
          ++ (if r.hasBBL && olt r.Close r.BBL then [sigBBLower] else [])))
    ∧ (r.hasBBL = false →
      sigBBLower ∉ (calculate_technical_strategy r).2
      ∧ calculate_technical_strategy r =
        (max 0 (min 100 ((50 : ℤ)
          + (if ogt r.Close r.SMA_Long then 10 else 0)
          + (if olt r.RSI (some 30) then 20 else 0)
          - (if ogt r.RSI (some 70) then 20 else 0)
          + (if r.hasMACD && (ogt r.MACD r.MACDs && ole r.prevMACD r.prevMACDs) then 15 else 0))),
         (if ogt r.Close r.SMA_Long then [sigSMALong] else [])
          ++ (if olt r.RSI (some 30) then [sigRSIOversold] else [])
          ++ (if ogt r.RSI (some 70) then [sigRSIOverbought] else [])
          ++ (if r.hasMACD && (ogt r.MACD r.MACDs && ole r.prevMACD r.prevMACDs) then [sigMACDGolden] else []))) := by
  constructor
  · intro hm
    refine ⟨?_, ?_⟩
    · rw [mem_golden_iff]
      simp [hm]
    · rw [technical_eq]
      simp [hm]
  · intro hb
    refine ⟨?_, ?_⟩
    · rw [mem_bbl_iff]
      simp [hb]
    · rw [technical_eq]
      simp [hb]

/-- Witness for C4 at a concrete snapshot where every bonus rule fires:
the raw sum 50+10+20+15+15 = 110 is clamped to 100. -/
theorem technical_score_closed_form_witness :
    calculate_technical_strategy
      { Close := some 105, SMA_Long := some 100, RSI := some 25, hasMACD := true,
        MACD := some 2, MACDs := some 1, prevMACD := some 0, prevMACDs := some 1,
        hasBBL := true, BBL := some 110 }
      = (100, [sigSMALong, sigRSIOversold, sigMACDGolden, sigBBLower]) := by
  have h := (technical_score_closed_form
    { Close := some 105, SMA_Long := some 100, RSI := some 25, hasMACD := true,
      MACD := some 2, MACDs := some 1, prevMACD := some 0, prevMACDs := some 1,
      hasBBL := true, BBL := some 110 }).1
  rw [h]
  norm_num [ogt, olt, ole, max_def, min_def]

/-- Witness for C5 at a concrete snapshot: volume spike on an up-close
plus OBV inflow plus cold MFI gives `min(100, 50+15+10+10) = 85`. -/
theorem smart_money_score_spec_witness :
    calculate_smart_money
      { Close := some 12, Open := some 10, RVOL := some 2, OBV := some 500,
        OBV_EMA := some 400, MFI := some 15 }
      = (85, [sigVolUp, sigOBV, sigMFICold]) := by
  have h := (smart_money_score_spec
    { Close := some 12, Open := some 10, RVOL := some 2, OBV := some 500,
      OBV_EMA := some 400, MFI := some 15 }).1
  rw [h]
  norm_num [ogt, olt, ole, max_def, min_def]

/-- Witness for C6: on a strict upward crossing the golden-cross signal
is emitted. -/
theorem macd_golden_cross_spec_witness :
    sigMACDGolden ∈
      (calculate_technical_strategy
        { Close := some 10, SMA_Long := some 20, RSI := some 50, hasMACD := true,
          MACD := some 2, MACDs := some 1, prevMACD := some 0, prevMACDs := some 1,
          hasBBL := false, BBL := none }).2 := by
  have h := macd_golden_cross_spec
    { Close := some 10, SMA_Long := some 20, RSI := some 50, hasMACD := true,
      MACD := some 2, MACDs := some 1, prevMACD := some 0, prevMACDs := some 1,
      hasBBL := false, BBL := none } 2 1 0 1 rfl rfl rfl rfl rfl
  exact h.1.mpr (by norm_num)

/-- Witness for C10: with both optional columns absent the scorer still
returns a value (base 50 here) and emits neither guarded signal. -/
theorem missing_indicator_columns_skip_witness :
    sigMACDGolden ∉
      (calculate_technical_strategy
        { Close := some 10, SMA_Long := none, RSI := some 50, hasMACD := false,
          MACD := none, MACDs := none, prevMACD := none, prevMACDs := none,
          hasBBL := false, BBL := none }).2 := by
  exact ((missing_indicator_columns_skip
    { Close := some 10, SMA_Long := none, RSI := some 50, hasMACD := false,
      MACD := none, MACDs := none, prevMACD := none, prevMACDs := none,
      hasBBL := false, BBL := none }).1 rfl).1

theorem ogt_none_left (b : Option ℚ) : ogt none b = false := rfl

theorem ogt_none_right (a : Option ℚ) : ogt a none = false := by
  cases a <;> rfl

theorem olt_none_left (b : Option ℚ) : olt none b = false := rfl

theorem olt_none_right (a : Option ℚ) : olt a none = false := by
  cases a <;> rfl

/-- C1 (counterexample): a snapshot whose required indicator values are
absent/NaN at the evaluation index — exactly the situation produced by
supplying fewer bars than the indicator lookbacks — makes both scorers
return the silently defaulted base score 50 with no signals and no
failure of any kind, contradicting the claim that a DataInsufficient
failure is surfaced instead of a defaulted 50. -/
theorem data_insufficiency_counterexample :
    calculate_smart_money
      { Close := some 10, Open := some 9, RVOL := none, OBV := some 5,
        OBV_EMA := none, MFI := none } = (50, [])
    ∧ calculate_technical_strategy
      { Close := some 10, SMA_Long := none, RSI := none, hasMACD := true,
        MACD := none, MACDs := none, prevMACD := none, prevMACDs := none,
        hasBBL := true, BBL := none } = (50, []) := by
  constructor
  · rw [smart_money_eq]
    norm_num [ogt, olt, max_def, min_def]
  · rw [technical_eq]
    norm_num [ogt, olt, ole, max_def, min_def]

/-- C1 (amended): when the required indicator values are absent/NaN at
the evaluation index (as happens whenever fewer bars than the longest
indicator lookback are supplied), the scorers surface no
data-insufficiency failure: every NaN-guarded rule is silently skipped
and both scorers return the score silently defaulted to the base 50
with an empty signal list. -/
theorem insufficient_data_silent_default (r : SmartRow) (t : TechRow)
    (h1 : r.RVOL = none) (h2 : r.OBV_EMA = none) (h3 : r.MFI = none)
    (h4 : t.SMA_Long = none) (h5 : t.RSI = none) (h6 : t.MACDs = none)
    (h7 : t.BBL = none) :
    calculate_smart_money r = (50, [])
    ∧ calculate_technical_strategy t = (50, []) := by
  constructor
  · rw [smart_money_eq]
    rw [h1, h2, h3]
    simp [ogt_none_left, ogt_none_right, olt_none_left, olt_none_right]
  · rw [technical_eq]
    rw [h4, h5, h6, h7]
    simp [ogt_none_left, ogt_none_right, olt_none_left, olt_none_right]

/-- Witness for the amended C1 at concrete insufficient snapshots. -/
theorem insufficient_data_silent_default_witness :
    calculate_smart_money
      { Close := some 20, Open := some 21, RVOL := none, OBV := some 7,
        OBV_EMA := none, MFI := none } = (50, []) := by
  exact (insufficient_data_silent_default
    { Close := some 20, Open := some 21, RVOL := none, OBV := some 7,
      OBV_EMA := none, MFI := none }
    { Close := some 20, SMA_Long := none, RSI := none, hasMACD := false,
      MACD := none, MACDs := none, prevMACD := none, prevMACDs := none,
      hasBBL := false, BBL := none }
    rfl rfl rfl rfl rfl rfl rfl).1

/-- C2: the composite score is exactly
`technical*0.5 + smartMoney*0.3 + (sentiment+50)*0.2`, is not reclamped,
and over the admissible input ranges spans `[-10, 110]`, attaining `110`
at `(100,100,100)` and `-10` at `(0,0,-100)`. -/
theorem composite_score_spec (t s n : ℚ)
    (ht0 : 0 ≤ t) (ht1 : t ≤ 100) (hs0 : 0 ≤ s) (hs1 : s ≤ 100)
    (hn0 : -100 ≤ n) (hn1 : n ≤ 100) :
    total_score t s n = t * 0.5 + s * 0.3 + (n + 50) * 0.2
    ∧ -10 ≤ total_score t s n
    ∧ total_score t s n ≤ 110
    ∧ total_score 100 100 100 = 110
    ∧ total_score 0 0 (-100) = -10 := by
  refine ⟨rfl, ?_, ?_, by norm_num [total_score], by norm_num [total_score]⟩
  · unfold total_score
    norm_num
    linarith
  · unfold total_score
    norm_num
    linarith

/-- Witness for C2 at the spec's worked example `(80, 60, 50)`. -/
theorem composite_score_spec_witness :
    total_score 80 60 50 = 78
    ∧ -10 ≤ total_score 80 60 50 ∧ total_score 80 60 50 ≤ 110 := by
  have h := composite_score_spec 80 60 50 (by norm_num) (by norm_num)
    (by norm_num) (by norm_num) (by norm_num) (by norm_num)
  exact ⟨by norm_num [total_score], h.2.1, h.2.2.1⟩

/-- C3: tier thresholds (`≥70` strong buy, `[50,70)` neutral, `<50`
avoid), entry-zone suggestion present iff the composite is `≥ 60` and
then equal to `currentPrice*0.98`, and rationale list equal to the
technical signals followed by the smart-money signals. -/
theorem recommendation_spec (c price : ℚ) (tech_reasons sm_signals : List String) :
    (recommendation c = Recommendation.StrongBuy ↔ 70 ≤ c)
    ∧ (recommendation c = Recommendation.Neutral ↔ 50 ≤ c ∧ c < 70)
    ∧ (recommendation c = Recommendation.Avoid ↔ c < 50)
    ∧ ((buy_zone c price).isSome ↔ 60 ≤ c)
    ∧ (60 ≤ c → buy_zone c price = some (price * 0.98))
    ∧ (c < 60 → buy_zone c price = none)
    ∧ rationale_list tech_reasons sm_signals = tech_reasons ++ sm_signals := by
  unfold recommendation buy_zone rationale_list
  refine ⟨?_, ?_, ?_, ?_, ?_, ?_, rfl⟩ <;>
    split_ifs <;> simp_all [ge_iff_le, not_le] <;> linarith

/-- Witness for C3 at composites 78 (strong buy, entry at 98) and 32
(avoid, no entry). -/
theorem recommendation_spec_witness :
    recommendation 78 = Recommendation.StrongBuy
    ∧ buy_zone 78 100 = some 98
    ∧ recommendation 32 = Recommendation.Avoid
    ∧ buy_zone 32 100 = none := by
  obtain ⟨hSB, _, _, _, hEntry, _, _⟩ := recommendation_spec 78 100 [] []
  obtain ⟨_, _, hAv, _, _, hNone, _⟩ := recommendation_spec 32 100 [] []
  refine ⟨hSB.mpr (by norm_num), ?_, hAv.mpr (by norm_num), hNone (by norm_num)⟩
  rw [hEntry (by norm_num)]
  norm_num

/-- Entries of a list all lying in `[-1, 1]` have a sum within plus or
minus the list length. -/
theorem list_sum_bounds (l : List ℚ) (h : ∀ p ∈ l, -1 ≤ p ∧ p ≤ 1) :
    -(l.length : ℚ) ≤ l.sum ∧ l.sum ≤ (l.length : ℚ) := by
  induction l with
  | nil => simp
  | cons a tl ih =>
    have ha := h a (List.mem_cons_self a tl)
    have htl := ih (fun p hp => h p (List.mem_cons_of_mem a hp))
    simp only [List.sum_cons, List.length_cons]
    push_cast
    constructor <;> linarith [ha.1, ha.2, htl.1, htl.2]

/-- C7: the sentiment aggregator returns exactly 0 on an empty headline
list without failing; on a non-empty list it returns the arithmetic mean
of the polarities of the first at most 5 headlines scaled by 100, which
for polarities in `[-1, 1]` always lies in `[-100, 100]`; polarities
`[0.4, -0.2, 0]` yield `20/3 ≈ 6.67`. -/
theorem analyze_sentiment_spec :
    (analyze_sentiment []).1 = 0
    ∧ (analyze_sentiment [2/5, -(1/5), 0]).1 = 20/3
    ∧ ∀ l : List ℚ, (∀ p ∈ l, -1 ≤ p ∧ p ≤ 1) →
        (l ≠ [] →
          (analyze_sentiment l).1 = (l.take 5).sum / ((l.take 5).length : ℚ) * 100)
        ∧ -100 ≤ (analyze_sentiment l).1 ∧ (analyze_sentiment l).1 ≤ 100 := by
  refine ⟨rfl, ?_, ?_⟩
  · have hne : ([2/5, -(1/5), 0] : List ℚ) ≠ [] := by simp
    unfold analyze_sentiment
    rw [if_neg hne]
    norm_num
  intro l hl
  by_cases hnil : l = []
  · subst hnil
    exact ⟨fun h => absurd rfl h, by norm_num [analyze_sentiment]⟩
  · have hcount : (l.take 5).length ≠ 0 := by
      rw [List.length_take]
      rcases l with _ | ⟨a, tl⟩
      · exact absurd rfl hnil
      · simp
    have heq : (analyze_sentiment l).1
        = (l.take 5).sum / ((l.take 5).length : ℚ) * 100 := by
      unfold analyze_sentiment
      rw [if_neg hnil]
      simp only [if_neg hcount]
      rw [← List.sum_eq_foldl]
    have hlenpos : (0 : ℚ) < ((l.take 5).length : ℚ) := by
      have := Nat.pos_of_ne_zero hcount
      exact_mod_cast this
    have hb := list_sum_bounds (l.take 5)
      (fun p hp => hl p (List.mem_of_mem_take hp))
    have hup : (l.take 5).sum / ((l.take 5).length : ℚ) ≤ 1 :=
      (div_le_one hlenpos).mpr hb.2
    have hlo : (-1 : ℚ) ≤ (l.take 5).sum / ((l.take 5).length : ℚ) :=
      (le_div_iff₀ hlenpos).mpr (by linarith [hb.1])
    refine ⟨fun _ => heq, ?_, ?_⟩
    · rw [heq]
      nlinarith [hlo]
    · rw [heq]
      nlinarith [hup]

/-- Witness for C7 on six all-positive polarities (only five are used):
the aggregate stays within the bounds. -/
theorem analyze_sentiment_spec_witness :
    -100 ≤ (analyze_sentiment [1, 1, 1, 1, 1, 1]).1
    ∧ (analyze_sentiment [1, 1, 1, 1, 1, 1]).1 ≤ 100 := by
  have h := analyze_sentiment_spec.2.2 [1, 1, 1, 1, 1, 1]
    (by
      intro p hp
      simp at hp
      subst hp
      norm_num)
  exact ⟨h.2.1, h.2.2⟩

instance : Std.Antisymm (fun x y : ℚ => x ≤ y) :=
  ⟨fun h h2 => le_antisymm h h2⟩

theorem max?_spec (l : List ℚ) (a : ℚ) :
    l.max? = some a ↔ a ∈ l ∧ ∀ b ∈ l, b ≤ a :=
  List.max?_eq_some_iff (fun _ => le_refl _) max_choice (fun _ _ _ => max_le_iff)

theorem min?_spec (l : List ℚ) (a : ℚ) :
    l.min? = some a ↔ a ∈ l ∧ ∀ b ∈ l, a ≤ b :=
  List.min?_eq_some_iff (fun _ => le_refl _) min_choice (fun _ _ _ => le_min_iff)

/-- C8: on any non-empty bar series the levels calculator returns the
maximum high and minimum low over the most recent `min(20, length)`
bars — the window narrows instead of failing when fewer than 20 bars
exist; highs `[10,12,9,15,11]` and lows `[8,9,7,10,9]` give resistance
15 and support 7. -/
theorem levels_spec :
    recent_high [10, 12, 9, 15, 11] = some 15
    ∧ recent_low [8, 9, 7, 10, 9] = some 7
    ∧ ∀ l : List ℚ, l ≠ [] →
        (tail20 l).length = min 20 l.length
        ∧ (∃ r, recent_high l = some r ∧ r ∈ tail20 l ∧ ∀ x ∈ tail20 l, x ≤ r)
        ∧ (∃ s, recent_low l = some s ∧ s ∈ tail20 l ∧ ∀ x ∈ tail20 l, s ≤ x) := by
  refine ⟨?_, ?_, ?_⟩
  · unfold recent_high
    refine (max?_spec _ _).mpr ⟨by norm_num [tail20], ?_⟩
    intro b hb
    simp [tail20] at hb
    rcases hb with h | h | h | h | h <;> subst h <;> norm_num
  · unfold recent_low
    refine (min?_spec _ _).mpr ⟨by norm_num [tail20], ?_⟩
    intro b hb
    simp [tail20] at hb
    rcases hb with h | h | h | h | h <;> subst h <;> norm_num
  · intro l hnil
    have hlen : (tail20 l).length = min 20 l.length := by
      simp only [tail20, List.length_drop]
      omega
    have hpos : 0 < l.length := List.length_pos.mpr hnil
    have htpos : 0 < (tail20 l).length := by
      rw [hlen]
      omega
    have htne : tail20 l ≠ [] := List.length_pos.mp htpos
    refine ⟨hlen, ?_, ?_⟩
    · cases hm : (tail20 l).max? with
      | none => exact absurd (List.max?_eq_none_iff.mp hm) htne
      | some r =>
        obtain ⟨hmem, hub⟩ := (max?_spec _ _).mp hm
        exact ⟨r, hm, hmem, hub⟩
    · cases hm : (tail20 l).min? with
      | none => exact absurd (List.min?_eq_none_iff.mp hm) htne
      | some s =>
        obtain ⟨hmem, hlb⟩ := (min?_spec _ _).mp hm
        exact ⟨s, hm, hmem, hlb⟩

/-- Witness for C8 on a three-bar series (window narrows to 3). -/
theorem levels_spec_witness :
    ∃ r, recent_high [3, 1, 2] = some r
      ∧ r ∈ tail20 [3, 1, 2] ∧ ∀ x ∈ tail20 [3, 1, 2], x ≤ r := by
  exact (levels_spec.2.2 [3, 1, 2] (by simp)).2.1

/-! ### DataFrame-level embedding (frame effects of the scorers)

A pandas dataframe is embedded as an ordered association list of named
columns. A column assignment `df[name] = s` replaces the (first)
existing column of that name in place, or appends a new column at the
end — exactly the effect of the assignments at app.py lines 74-82 and
114-118 on the caller's dataframe. The `pandas_ta` indicator
computations are an external library; the dataframe-level scorers are
parametrised over them (an `IndicatorLib`), so the theorems below hold
for every indicator implementation. -/

abbrev Series := List (Option ℚ)

abbrev DataFrame := List (String × Series)

/-- `df[name] = s` (pandas column assignment, in place). -/
def dfSet : DataFrame → String → Series → DataFrame
  | [], name, s => [(name, s)]
  | c :: rest, name, s =>
    if c.1 = name then (name, s) :: rest else c :: dfSet rest name s

/-- `df[name]` column lookup. -/
def dfGet : DataFrame → String → Option Series
  | [], _ => none
  | c :: rest, name => if c.1 = name then some c.2 else dfGet rest name

/-- `name in df.columns`. -/
def hasCol (df : DataFrame) (name : String) : Bool :=
  (dfGet df name).isSome

/-- Column contents; the source only reads columns that exist, so a
missing column is modelled as the empty series. -/
def dfCol (df : DataFrame) (name : String) : Series :=
  (dfGet df name).getD []

/-- `df.iloc[-1][name]`, `none` for an absent/NaN value. -/
def lastVal (df : DataFrame) (name : String) : Option ℚ :=
  ((dfCol df name).getLast?).join

/-- `df.iloc[-2][name]`. -/
def prevVal (df : DataFrame) (name : String) : Option ℚ :=
  ((dfCol df name).dropLast.getLast?).join

/-- Elementwise pandas division (NaN-propagating; a zero denominator
also yields a non-numeric cell). -/
def seriesDiv (a b : Series) : Series :=
  List.zipWith
    (fun x y =>
      match x, y with
      | some u, some v => if v = 0 then none else some (u / v)
      | _, _ => none) a b

/-- The indicator computations the source delegates to
`pandas_ta`/pandas rolling windows (an external library, injected here).
`macd` and `bbands_20` return whole column sets, mirroring
`ta.macd`/`ta.bbands`. -/
structure IndicatorLib where
  rolling_mean_50 : Series → Series
  obv : Series → Series → Series
  ema_20 : Series → Series
  mfi_14 : Series → Series → Series → Series → Series
  sma : ℕ → Series → Series
  rsi_14 : Series → Series
  macd : Series → DataFrame
  bbands_20 : Series → DataFrame

/-- Dataframe-level `calculate_smart_money`: the five column assignments
of app.py lines 74-82 applied to the caller's dataframe (returned first
component — in the source the same object, mutated in place), then the
scoring of the latest row. -/
def calculate_smart_money_df (lib : IndicatorLib) (df : DataFrame) :
    DataFrame × ℤ × List String :=
  let df1 := dfSet df "Vol_SMA" (lib.rolling_mean_50 (dfCol df "Volume"))
  let df2 := dfSet df1 "RVOL" (seriesDiv (dfCol df1 "Volume") (dfCol df1 "Vol_SMA"))
  let df3 := dfSet df2 "OBV" (lib.obv (dfCol df2 "Close") (dfCol df2 "Volume"))
  let df4 := dfSet df3 "OBV_EMA" (lib.ema_20 (dfCol df3 "OBV"))
  let df5 := dfSet df4 "MFI"
    (lib.mfi_14 (dfCol df4 "High") (dfCol df4 "Low") (dfCol df4 "Close") (dfCol df4 "Volume"))
  let latest : SmartRow :=
    { Close := lastVal df5 "Close", Open := lastVal df5 "Open",
      RVOL := lastVal df5 "RVOL", OBV := lastVal df5 "OBV",
      OBV_EMA := lastVal df5 "OBV_EMA", MFI := lastVal df5 "MFI" }
  (df5, calculate_smart_money latest)

/-- Dataframe-level `calculate_technical_strategy`: three in-place
column assignments (app.py lines 114-118), two `pd.concat` column
appends (lines 121 and 125), scoring of the latest/previous rows, and
the augmented dataframe returned to the caller (line 162). -/
def calculate_technical_strategy_df (lib : IndicatorLib)
    (ma_window_short ma_window_long : ℕ) (df : DataFrame) :
    ℤ × List String × DataFrame :=
  let df1 := dfSet df "SMA_Short" (lib.sma ma_window_short (dfCol df "Close"))
  let df2 := dfSet df1 "SMA_Long" (lib.sma ma_window_long (dfCol df1 "Close"))
  let df3 := dfSet df2 "RSI" (lib.rsi_14 (dfCol df2 "Close"))
  let df4 := df3 ++ lib.macd (dfCol df3 "Close")
  let df5 := df4 ++ lib.bbands_20 (dfCol df4 "Close")
  let r : TechRow :=
    { Close := lastVal df5 "Close", SMA_Long := lastVal df5 "SMA_Long",
      RSI := lastVal df5 "RSI",
      hasMACD := hasCol df5 "MACD_12_26_9",
      MACD := lastVal df5 "MACD_12_26_9", MACDs := lastVal df5 "MACDs_12_26_9",
      prevMACD := prevVal df5 "MACD_12_26_9", prevMACDs := prevVal df5 "MACDs_12_26_9",
      hasBBL := hasCol df5 "BBL_20_2.0", BBL := lastVal df5 "BBL_20_2.0" }
  ((calculate_technical_strategy r).1, (calculate_technical_strategy r).2, df5)

theorem dfGet_dfSet_self (df : DataFrame) (name : String) (s : Series) :
    dfGet (dfSet df name s) name = some s := by
  induction df with
  | nil => simp [dfSet, dfGet]
  | cons c rest ih =>
    by_cases h : c.1 = name
    · simp [dfSet, dfGet, h]
    · simp [dfSet, dfGet, h, ih]

theorem dfGet_dfSet_ne (df : DataFrame) (m name : String) (s : Series)
    (h : name ≠ m) : dfGet (dfSet df m s) name = dfGet df name := by
  induction df with
  | nil => simp [dfSet, dfGet, Ne.symm h]
  | cons c rest ih =>
    by_cases hc : c.1 = m
    · simp [dfSet, dfGet, hc, Ne.symm h]
    · by_cases hn : c.1 = name
      · simp [dfSet, dfGet, hc, hn, h]
      · simp [dfSet, dfGet, hc, hn, ih]

theorem dfGet_append_left (df df2 : DataFrame) (name : String)
    (h : (dfGet df name).isSome = true) :
    dfGet (df ++ df2) name = dfGet df name := by
  induction df with
  | nil => simp [dfGet] at h
  | cons c rest ih =>
    by_cases hc : c.1 = name
    · simp [dfGet, hc]
    · have h' : (dfGet rest name).isSome = true := by
        simpa [dfGet, hc] using h
      simp [dfGet, hc, ih h']

/-- A stand-in indicator library whose computed series are all-NaN, as
`pandas_ta` yields on a too-short history; the mutation counterexample
does not depend on the indicator values at all. -/
def nanLib : IndicatorLib where
  rolling_mean_50 := fun s => s.map (fun _ => none)
  obv := fun c _ => c.map (fun _ => none)
  ema_20 := fun s => s.map (fun _ => none)
  mfi_14 := fun h _ _ _ => h.map (fun _ => none)
  sma := fun _ s => s.map (fun _ => none)
  rsi_14 := fun s => s.map (fun _ => none)
  macd := fun _ => []
  bbands_20 := fun _ => []

/-- A one-bar OHLCV dataframe as handed to the scorers. -/
def df0 : DataFrame :=
  [ ( "Open", [ some 11 ] ), ( "High", [ some 12 ] ), ( "Low", [ some 9 ] ),
    ( "Close", [ some 10 ] ), ( "Volume", [ some 1000 ] ) ]

/-- C9 (counterexample): the smart-money scorer does modify its input
snapshot — after the call the caller's dataframe additionally holds the
computed `RVOL` (and the other four) indicator columns, so the
intermediate series are retained in the input rather than discarded. -/
theorem smart_money_mutation_counterexample :
    (calculate_smart_money_df nanLib df0).1 ≠ df0
    ∧ hasCol (calculate_smart_money_df nanLib df0).1 "RVOL" = true
    ∧ hasCol df0 "RVOL" = false := by
  have h1 : hasCol (calculate_smart_money_df nanLib df0).1 "RVOL" = true := by rfl
  have h2 : hasCol df0 "RVOL" = false := by rfl
  refine ⟨?_, h1, h2⟩
  intro he
  rw [he, h2] at h1
  exact Bool.noConfusion h1

/-- C9 (amended): the scorers leave every pre-existing column (the
OHLCV series in particular) unchanged, but they retain the freshly
computed indicator series instead of discarding them: the smart-money
scorer stores `Vol_SMA`, `RVOL`, `OBV`, `OBV_EMA`, `MFI` into the
caller's dataframe, and the technical scorer hands back a dataframe
augmented with its `SMA`/`RSI`/MACD/Bollinger columns. -/
theorem scorer_column_effects (lib : IndicatorLib) (df : DataFrame)
    (name : String) (wS wL : ℕ) :
    (name ∉ ["Vol_SMA", "RVOL", "OBV", "OBV_EMA", "MFI"] →
      dfGet (calculate_smart_money_df lib df).1 name = dfGet df name)
    ∧ hasCol (calculate_smart_money_df lib df).1 "Vol_SMA" = true
    ∧ hasCol (calculate_smart_money_df lib df).1 "RVOL" = true
    ∧ hasCol (calculate_smart_money_df lib df).1 "OBV" = true
    ∧ hasCol (calculate_smart_money_df lib df).1 "OBV_EMA" = true
    ∧ hasCol (calculate_smart_money_df lib df).1 "MFI" = true
    ∧ (name ∉ ["SMA_Short", "SMA_Long", "RSI"] → (dfGet df name).isSome = true →
      dfGet (calculate_technical_strategy_df lib wS wL df).2.2 name = dfGet df name)
    ∧ hasCol (calculate_technical_strategy_df lib wS wL df).2.2 "SMA_Long" = true := by
  refine ⟨?_, ?_, ?_, ?_, ?_, ?_, ?_, ?_⟩
  · intro hn
    simp only [List.mem_cons, List.mem_singleton, not_or] at hn
    obtain ⟨n1, n2, n3, n4, n5, -⟩ := hn
    simp only [calculate_smart_money_df]
    rw [dfGet_dfSet_ne _ _ _ _ n5, dfGet_dfSet_ne _ _ _ _ n4,
      dfGet_dfSet_ne _ _ _ _ n3, dfGet_dfSet_ne _ _ _ _ n2,
      dfGet_dfSet_ne _ _ _ _ n1]
  · simp only [calculate_smart_money_df, hasCol]
    rw [dfGet_dfSet_ne _ _ _ _ (by decide), dfGet_dfSet_ne _ _ _ _ (by decide),
      dfGet_dfSet_ne _ _ _ _ (by decide), dfGet_dfSet_ne _ _ _ _ (by decide),
      dfGet_dfSet_self]
    rfl
  · simp only [calculate_smart_money_df, hasCol]
    rw [dfGet_dfSet_ne _ _ _ _ (by decide), dfGet_dfSet_ne _ _ _ _ (by decide),
      dfGet_dfSet_ne _ _ _ _ (by decide), dfGet_dfSet_self]
    rfl
  · simp only [calculate_smart_money_df, hasCol]
    rw [dfGet_dfSet_ne _ _ _ _ (by decide), dfGet_dfSet_ne _ _ _ _ (by decide),
      dfGet_dfSet_self]
    rfl
  · simp only [calculate_smart_money_df, hasCol]
    rw [dfGet_dfSet_ne _ _ _ _ (by decide), dfGet_dfSet_self]
    rfl
  · simp only [calculate_smart_money_df, hasCol]
    rw [dfGet_dfSet_self]
    rfl
  · intro hn hsome
    simp only [List.mem_cons, List.mem_singleton, not_or] at hn
    obtain ⟨n1, n2, n3, -⟩ := hn
    simp only [calculate_technical_strategy_df]
    have e3 : dfGet (dfSet (dfSet (dfSet df "SMA_Short"
        (lib.sma wS (dfCol df "Close"))) "SMA_Long"
        (lib.sma wL (dfCol (dfSet df "SMA_Short" (lib.sma wS (dfCol df "Close"))) "Close")))
        "RSI" (lib.rsi_14 (dfCol (dfSet (dfSet df "SMA_Short"
        (lib.sma wS (dfCol df "Close"))) "SMA_Long"
        (lib.sma wL (dfCol (dfSet df "SMA_Short" (lib.sma wS (dfCol df "Close"))) "Close"))) "Close"))) name
        = dfGet df name := by
      rw [dfGet_dfSet_ne _ _ _ _ n3, dfGet_dfSet_ne _ _ _ _ n2,
        dfGet_dfSet_ne _ _ _ _ n1]
    rw [dfGet_append_left, dfGet_append_left, e3]
    · rw [e3]
      exact hsome
    · rw [dfGet_append_left, e3]
      · exact hsome
      · rw [e3]
        exact hsome
  · simp only [calculate_technical_strategy_df, hasCol]
    have e2 : dfGet (dfSet (dfSet (dfSet df "SMA_Short"
        (lib.sma wS (dfCol df "Close"))) "SMA_Long"
        (lib.sma wL (dfCol (dfSet df "SMA_Short" (lib.sma wS (dfCol df "Close"))) "Close")))
        "RSI" (lib.rsi_14 (dfCol (dfSet (dfSet df "SMA_Short"
        (lib.sma wS (dfCol df "Close"))) "SMA_Long"
        (lib.sma wL (dfCol (dfSet df "SMA_Short" (lib.sma wS (dfCol df "Close"))) "Close"))) "Close"))) "SMA_Long"
        = some (lib.sma wL (dfCol (dfSet df "SMA_Short" (lib.sma wS (dfCol df "Close"))) "Close")) := by
      rw [dfGet_dfSet_ne _ _ _ _ (by decide), dfGet_dfSet_self]
    rw [dfGet_append_left, dfGet_append_left, e2]
    · rfl
    · rw [e2]
      rfl
    · rw [dfGet_append_left, e2]
      · rfl
      · rw [e2]
        rfl

/-- Witness for the amended C9: on the concrete one-bar dataframe the
`Close` column is preserved and the computed `MFI` column is retained. -/
theorem scorer_column_effects_witness :
    dfGet (calculate_smart_money_df nanLib df0).1 "Close" = dfGet df0 "Close"
    ∧ hasCol (calculate_smart_money_df nanLib df0).1 "MFI" = true := by
  have h := scorer_column_effects nanLib df0 "Close" 20 50
  exact ⟨h.1 (by decide), h.2.2.2.2.2.1⟩

end USAStock
